import Mathlib

/-!
Verification of the BaaS client-SDK skills repository.

The definitions below are a shallow embedding of the TypeScript templates:
  * `src/baas-common/references/types.ts` (ErrorCode, response envelope types),
  * `src/skills/baas-integration/templates/baas.ts` (the integrated client),
  * `src/skills/baas-integration/templates/react/config.ts` (React config),
  * `src/account/baas-account-integrations/templates/auth.ts` (account client),
  * `src/skills/baas-recipient/templates/recipient.ts` (recipient client).

JavaScript strings are modelled as Lean `String`, absent (`undefined`)
values as `Option`, JavaScript truthiness of a string (`"" `and `undefined`
are falsy) as the `truthy` predicate, thrown exceptions as `Except`, and
the single `fetch` a function performs as an explicitly returned request
description plus an environment-supplied response.
-/

namespace Baas

/-- The closed `ErrorCode` union from
`src/baas-common/references/types.ts`, lines 53-80, in declaration
order. -/
inductive ErrorCode
  | INVALID_USER
  | UNAUTHORIZED
  | INVALID_TOKEN
  | TOKEN_EXPIRED
  | NOT_FOUND
  | BAD_REQUEST
  | INVALID_REQUEST
  | VALIDATION_ERROR
  | ALREADY_EXISTS
  | ALREADY_COMPLETED
  | EXPIRED
  | RATE_LIMIT_EXCEEDED
  | MAX_ATTEMPTS_EXCEEDED
  | INVALID_CODE
  | INTERNAL_SERVER_ERROR
  | NOT_IMPLEMENTED
  | EXTERNAL_SERVER_ERROR
  | WEBHOOK_ERROR
  | UNSUPPORTED_VENDOR
  | UNSUPPORTED_METHOD
  | FCM_SUBSCRIBE_FAILED
  deriving DecidableEq, Fintype

/-- The declared error codes, in the declaration order of the union in
`types.ts`. -/
def errorCodeList : List ErrorCode :=
  [ .INVALID_USER, .UNAUTHORIZED, .INVALID_TOKEN, .TOKEN_EXPIRED,
    .NOT_FOUND, .BAD_REQUEST, .INVALID_REQUEST, .VALIDATION_ERROR,
    .ALREADY_EXISTS, .ALREADY_COMPLETED, .EXPIRED,
    .RATE_LIMIT_EXCEEDED, .MAX_ATTEMPTS_EXCEEDED, .INVALID_CODE,
    .INTERNAL_SERVER_ERROR, .NOT_IMPLEMENTED, .EXTERNAL_SERVER_ERROR,
    .WEBHOOK_ERROR, .UNSUPPORTED_VENDOR, .UNSUPPORTED_METHOD,
    .FCM_SUBSCRIBE_FAILED ]

/-- The canonical HTTP status attached to each code, from the per-code
annotations in `types.ts` lines 53-80 (identical to the tables of the
synced error-code reference document). -/
def httpStatus : ErrorCode → Nat
  | .INVALID_USER => 400
  | .UNAUTHORIZED => 401
  | .INVALID_TOKEN => 401
  | .TOKEN_EXPIRED => 401
  | .NOT_FOUND => 404
  | .BAD_REQUEST => 400
  | .INVALID_REQUEST => 400
  | .VALIDATION_ERROR => 400
  | .ALREADY_EXISTS => 409
  | .ALREADY_COMPLETED => 400
  | .EXPIRED => 410
  | .RATE_LIMIT_EXCEEDED => 429
  | .MAX_ATTEMPTS_EXCEEDED => 429
  | .INVALID_CODE => 400
  | .INTERNAL_SERVER_ERROR => 500
  | .NOT_IMPLEMENTED => 501
  | .EXTERNAL_SERVER_ERROR => 502
  | .WEBHOOK_ERROR => 500
  | .UNSUPPORTED_VENDOR => 400
  | .UNSUPPORTED_METHOD => 405
  | .FCM_SUBSCRIBE_FAILED => 500

/-- One entry of the `detail` array of a validation-error envelope
(`ValidationErrorDetail` in `types.ts`). -/
structure ValidationErrorDetail where
  field : String
  reason : String
  deriving DecidableEq

/-- A failure envelope (`ErrorResponse` of `types.ts`, with the optional
`detail` of `ValidationErrorResponse`). -/
structure FailureEnvelope where
  errorCode : ErrorCode
  message : String
  timestamp : Option String
  request_id : Option String
  path : Option String
  detail : Option (List ValidationErrorDetail)
  deriving DecidableEq

/-- The seven semantic error kinds of the error taxonomy. -/
inductive ErrorKind
  | AuthError
  | ValidationError
  | ConflictError
  | ExpiredError
  | RateLimitError
  | NotFoundError
  | ServerError
  deriving DecidableEq, Fintype

/-- Modelled from the spec: the repository has no `classify` function in
its source; the kind-of-code mapping is taken verbatim from the spec's
ErrorClassifier contract, which lists the codes of each of the seven
kinds. -/
def classifyKind : ErrorCode → ErrorKind
  | .INVALID_USER => .AuthError
  | .UNAUTHORIZED => .AuthError
  | .INVALID_TOKEN => .AuthError
  | .TOKEN_EXPIRED => .AuthError
  | .VALIDATION_ERROR => .ValidationError
  | .INVALID_REQUEST => .ValidationError
  | .BAD_REQUEST => .ValidationError
  | .INVALID_CODE => .ValidationError
  | .ALREADY_EXISTS => .ConflictError
  | .ALREADY_COMPLETED => .ConflictError
  | .EXPIRED => .ExpiredError
  | .RATE_LIMIT_EXCEEDED => .RateLimitError
  | .MAX_ATTEMPTS_EXCEEDED => .RateLimitError
  | .NOT_FOUND => .NotFoundError
  | .INTERNAL_SERVER_ERROR => .ServerError
  | .NOT_IMPLEMENTED => .ServerError
  | .EXTERNAL_SERVER_ERROR => .ServerError
  | .WEBHOOK_ERROR => .ServerError
  | .FCM_SUBSCRIBE_FAILED => .ServerError
  | .UNSUPPORTED_VENDOR => .ServerError
  | .UNSUPPORTED_METHOD => .ServerError

/-- Modelled from the spec: the classified error produced by the
ErrorClassifier, preserving the original envelope fields. -/
structure ClassifiedError where
  kind : ErrorKind
  errorCode : ErrorCode
  message : String
  request_id : Option String
  detail : Option (List ValidationErrorDetail)
  deriving DecidableEq

/-- Modelled from the spec: `classify` tags a failure envelope with its
semantic kind and preserves `errorCode`, `message`, `request_id` and
`detail`. -/
def classify (f : FailureEnvelope) : ClassifiedError :=
  { kind := classifyKind f.errorCode
    errorCode := f.errorCode
    message := f.message
    request_id := f.request_id
    detail := f.detail }

end Baas

namespace Baas

/-- Claim C1 (counterexample to the stated count): the `ErrorCode` union
declares 21 codes, not 22. -/
theorem errorCode_count_is_21_not_22 :
    errorCodeList.length = 21 ∧ errorCodeList.length ≠ 22 := by
  decide

/-- Claim C1 (amended to the 21 declared codes): the declared code list is
exhaustive and duplicate-free, `classifyKind` assigns every declared code
exactly one of the seven kinds, every kind is the kind of some code, and
the classified error preserves the original `errorCode`, `message`,
`request_id` and `detail`. -/
theorem classify_exhaustive_unique_preserving :
    (∀ c : ErrorCode, c ∈ errorCodeList) ∧
    errorCodeList.Nodup ∧
    (∀ c : ErrorCode, ∃! k : ErrorKind, classifyKind c = k) ∧
    (∀ k : ErrorKind, ∃ c : ErrorCode, classifyKind c = k) ∧
    (∀ f : FailureEnvelope,
      (classify f).kind = classifyKind f.errorCode ∧
      (classify f).errorCode = f.errorCode ∧
      (classify f).message = f.message ∧
      (classify f).request_id = f.request_id ∧
      (classify f).detail = f.detail) := by
  refine ⟨by decide, by decide, ?_, by decide, ?_⟩
  · intro c
    exact ⟨classifyKind c, rfl, fun k h => h.symm⟩
  · intro f
    exact ⟨rfl, rfl, rfl, rfl, rfl⟩

/-- Claim C2 (counterexample to the stated count): the closed enumeration
has 21 values, not 22. -/
theorem errorCode_card_is_21_not_22 :
    Fintype.card ErrorCode = 21 ∧ Fintype.card ErrorCode ≠ 22 := by
  decide

/-- Claim C2 (amended to 21 values): `ErrorCode` is a closed enumeration
of exactly 21 values, and the canonical HTTP statuses include
INVALID_USER to 400, UNAUTHORIZED to 401, ALREADY_EXISTS to 409, EXPIRED
to 410, RATE_LIMIT_EXCEEDED to 429 and INTERNAL_SERVER_ERROR to 500. -/
theorem errorCode_enumeration_and_statuses :
    Fintype.card ErrorCode = 21 ∧
    httpStatus .INVALID_USER = 400 ∧
    httpStatus .UNAUTHORIZED = 401 ∧
    httpStatus .ALREADY_EXISTS = 409 ∧
    httpStatus .EXPIRED = 410 ∧
    httpStatus .RATE_LIMIT_EXCEEDED = 429 ∧
    httpStatus .INTERNAL_SERVER_ERROR = 500 := by
  decide

end Baas

namespace Baas

/-- JavaScript truthiness of a possibly-undefined string: `undefined` and
the empty string are falsy. -/
def truthy : Option String → Bool
  | none => false
  | some s => !(s == "")

/-- The environment consulted by the `getProjectId` functions:
`process.env.BAAS_PROJECT_ID`, `process.env.REACT_APP_BAAS_PROJECT_ID`,
`process.env.NEXT_PUBLIC_BAAS_PROJECT_ID`, whether `import.meta` is
defined, and `import.meta.env.VITE_BAAS_PROJECT_ID`. -/
structure Env where
  baasProjectId : Option String
  reactAppBaasProjectId : Option String
  nextPublicBaasProjectId : Option String
  importMetaDefined : Bool
  viteBaasProjectId : Option String

/-- The Vite-style source as evaluated by
`typeof import.meta !== 'undefined' && import.meta.env?.VITE_BAAS_PROJECT_ID`:
absent unless `import.meta` is defined. -/
def viteSource (env : Env) : Option String :=
  if env.importMetaDefined then env.viteBaasProjectId else none

/-- The first truthy value of a `||` chain of optional strings. -/
def firstTruthy : List (Option String) → Option String
  | [] => none
  | v :: vs => if truthy v then v else firstTruthy vs

/-- The error message thrown by `getProjectId` in
`src/skills/baas-integration/templates/baas.ts`, lines 33-39. -/
def baasMissingMessage : String :=
  "[BaaS] project_id 환경변수 필요:\n" ++
  "  - BAAS_PROJECT_ID (Node.js)\n" ++
  "  - REACT_APP_BAAS_PROJECT_ID (React)\n" ++
  "  - NEXT_PUBLIC_BAAS_PROJECT_ID (Next.js)\n" ++
  "  - VITE_BAAS_PROJECT_ID (Vite)"

/-- `getProjectId` of `src/skills/baas-integration/templates/baas.ts`,
lines 25-42: the first truthy of the four environment sources, else a
thrown configuration error. -/
def getProjectId (env : Env) : Except String String :=
  match firstTruthy [env.baasProjectId, env.reactAppBaasProjectId,
      env.nextPublicBaasProjectId, viteSource env] with
  | some s => .ok s
  | none => .error baasMissingMessage

/-- The error message thrown by `getProjectId` in
`src/skills/baas-integration/templates/react/config.ts`, lines 19-24. -/
def configMissingMessage : String :=
  "[BaaS] project_id 환경변수가 설정되지 않았습니다.\n" ++
  "- React CRA: REACT_APP_BAAS_PROJECT_ID\n" ++
  "- Next.js: NEXT_PUBLIC_BAAS_PROJECT_ID\n" ++
  "- Vite: VITE_BAAS_PROJECT_ID"

/-- `getProjectId` of
`src/skills/baas-integration/templates/react/config.ts`, lines 12-27: it
consults only the three front-end sources. -/
def configGetProjectId (env : Env) : Except String String :=
  match firstTruthy [env.reactAppBaasProjectId,
      env.nextPublicBaasProjectId, viteSource env] with
  | some s => .ok s
  | none => .error configMissingMessage

/-- A character of an identifier-like token (environment-variable names
are maximal runs of these). -/
def isIdentChar (c : Char) : Bool := c.isAlphanum || c == '_'

/-- Splits a character list into maximal identifier-like runs; `acc`
holds the current run reversed. -/
def tokenizeAux : List Char → List Char → List String
  | [], acc => if acc.isEmpty then [] else [String.mk acc.reverse]
  | c :: cs, acc =>
    if isIdentChar c then tokenizeAux cs (c :: acc)
    else if acc.isEmpty then tokenizeAux cs acc
    else String.mk acc.reverse :: tokenizeAux cs []

/-- The maximal identifier-like tokens of a string; an environment
variable is enumerated by a message exactly when its name is one of
them. -/
def identTokens (s : String) : List String := tokenizeAux s.data []

end Baas

namespace Baas

/-- Claim C3 (counterexample): the React config resolver's
configuration-error message does not enumerate all four environment
variable names — on an empty environment it throws a message whose
identifier tokens do not include `BAAS_PROJECT_ID` — and with all four
sources populated with distinct values the winner is the
`BAAS_PROJECT_ID` environment variable, there being no explicit-argument
source in the code. -/
theorem configMessage_omits_fourth_name :
    configGetProjectId ⟨none, none, none, false, none⟩ =
      .error configMissingMessage ∧
    "BAAS_PROJECT_ID" ∉ identTokens configMissingMessage ∧
    getProjectId ⟨some "B", some "R", some "N", true, some "V"⟩ = .ok "B" := by
  refine ⟨rfl, by decide, rfl⟩

/-- Claim C3 (amended): resolution consults only environment variables —
there is no explicit-argument source. In the integration template the
order is `BAAS_PROJECT_ID`, `REACT_APP_BAAS_PROJECT_ID`,
`NEXT_PUBLIC_BAAS_PROJECT_ID`, Vite; the first non-empty source wins;
given only the Vite-style source populated that value is returned; given
none a configuration error is thrown whose message enumerates exactly the
four consulted variable names. The React config template consults and
enumerates only the latter three. -/
theorem projectId_resolution_precedence :
    (∀ env b, env.baasProjectId = some b → b ≠ "" → getProjectId env = .ok b) ∧
    (∀ env r, truthy env.baasProjectId = false →
      env.reactAppBaasProjectId = some r → r ≠ "" → getProjectId env = .ok r) ∧
    (∀ env n, truthy env.baasProjectId = false →
      truthy env.reactAppBaasProjectId = false →
      env.nextPublicBaasProjectId = some n → n ≠ "" →
      getProjectId env = .ok n) ∧
    (∀ env v, truthy env.baasProjectId = false →
      truthy env.reactAppBaasProjectId = false →
      truthy env.nextPublicBaasProjectId = false →
      env.importMetaDefined = true → env.viteBaasProjectId = some v →
      v ≠ "" → getProjectId env = .ok v) ∧
    (∀ env, truthy env.baasProjectId = false →
      truthy env.reactAppBaasProjectId = false →
      truthy env.nextPublicBaasProjectId = false →
      truthy (viteSource env) = false →
      getProjectId env = .error baasMissingMessage) ∧
    ("BAAS_PROJECT_ID" ∈ identTokens baasMissingMessage ∧
      "REACT_APP_BAAS_PROJECT_ID" ∈ identTokens baasMissingMessage ∧
      "NEXT_PUBLIC_BAAS_PROJECT_ID" ∈ identTokens baasMissingMessage ∧
      "VITE_BAAS_PROJECT_ID" ∈ identTokens baasMissingMessage) ∧
    ("REACT_APP_BAAS_PROJECT_ID" ∈ identTokens configMissingMessage ∧
      "NEXT_PUBLIC_BAAS_PROJECT_ID" ∈ identTokens configMissingMessage ∧
      "VITE_BAAS_PROJECT_ID" ∈ identTokens configMissingMessage) := by
  refine ⟨?_, ?_, ?_, ?_, ?_, by decide, by decide⟩
  · intro env b h hb
    simp [getProjectId, firstTruthy, truthy, h, hb]
  · intro env r h0 h hr
    simp only [getProjectId, firstTruthy, h0, Bool.false_eq_true, if_false]
    simp [truthy, h, hr]
  · intro env n h0 h1 h hn
    simp only [getProjectId, firstTruthy, h0, h1, Bool.false_eq_true, if_false]
    simp [truthy, h, hn]
  · intro env v h0 h1 h2 hm h hv
    simp only [getProjectId, firstTruthy, h0, h1, h2, Bool.false_eq_true, if_false]
    simp [viteSource, truthy, hm, h, hv]
  · intro env h0 h1 h2 h3
    simp only [getProjectId, firstTruthy, h0, h1, h2, h3, Bool.false_eq_true, if_false]

/-- Claim C3 witness: the precedence theorem applied at concrete
environments. -/
theorem projectId_resolution_precedence_witness :
    getProjectId ⟨some "B", some "R", some "N", true, some "V"⟩ = .ok "B" ∧
    getProjectId ⟨none, none, none, true, some "V"⟩ = .ok "V" ∧
    getProjectId ⟨none, some "", none, false, none⟩ =
      .error baasMissingMessage :=
  ⟨projectId_resolution_precedence.1 _ "B" rfl (by decide),
    projectId_resolution_precedence.2.2.2.1 _ "V" rfl rfl rfl rfl rfl (by decide),
    projectId_resolution_precedence.2.2.2.2.1 _ rfl rfl rfl rfl⟩

end Baas

namespace Baas

/-- JSON values, for request/response payloads (numbers restricted to the
integers the templates actually pass). -/
inductive Json where
  | null
  | bool (b : Bool)
  | num (n : Int)
  | str (s : String)
  | arr (elems : List Json)
  | obj (fields : List (String × Json))

/-- JSON string escaping as performed by `JSON.stringify`. -/
def escapeChar (c : Char) : String :=
  if c == '"' then "\\\""
  else if c == '\\' then "\\\\"
  else if c == '\n' then "\\n"
  else String.mk [c]

/-- A JSON string literal with its quotes. -/
def quoteString (s : String) : String :=
  "\"" ++ String.join (s.data.map escapeChar) ++ "\""

mutual

/-- `JSON.stringify` on our JSON values (compact form, keys in insertion
order, as JavaScript produces). -/
def stringify : Json → String
  | .null => "null"
  | .bool true => "true"
  | .bool false => "false"
  | .num n => toString n
  | .str s => quoteString s
  | .arr xs => "[" ++ stringifyArr xs ++ "]"
  | .obj fs => "\x7b" ++ stringifyObj fs ++ "\x7d"

/-- Comma-joined serialisation of array elements. -/
def stringifyArr : List Json → String
  | [] => ""
  | [x] => stringify x
  | x :: xs => stringify x ++ "," ++ stringifyArr xs

/-- Comma-joined serialisation of object fields. -/
def stringifyObj : List (String × Json) → String
  | [] => ""
  | [(k, v)] => quoteString k ++ ":" ++ stringify v
  | (k, v) :: fs => quoteString k ++ ":" ++ stringify v ++ "," ++ stringifyObj fs

end

/-- The parsed body of an HTTP response as the templates consume it: the
`result` discriminant, the `data` field (`null` when absent) and the
optional `message`. -/
structure RawEnvelope where
  result : String
  data : Json
  message : Option String

/-- JavaScript `m || fallback` on an optional string message. -/
def messageOr (m : Option String) (fallback : String) : String :=
  match m with
  | some s => if s == "" then fallback else s
  | none => fallback

/-- The envelope handling every template repeats
(`src/skills/baas-integration/templates/baas.ts`, e.g. lines 220-227):
`if (result.result !== 'SUCCESS') throw new Error(result.message || fallback);
return result.data`. -/
def handleEnvelope (e : RawEnvelope) (fallback : String) : Except String Json :=
  if e.result == "SUCCESS" then .ok e.data
  else .error (messageOr e.message fallback)

/-- `isSuccessResponse` of `src/baas-common/references/types.ts`, lines
87-89. -/
def isSuccessResponse (e : RawEnvelope) : Bool :=
  e.result == "SUCCESS"

/-- The fallback message of the `login` template in `baas.ts`. -/
def loginFallback : String := "로그인에 실패했습니다"

/-- Claim C4 (counterexample): a `result` value that is neither
`"SUCCESS"` nor `"FAIL"` is not surfaced as a distinct
malformed-response error — the code throws exactly the same generic
error as for `"FAIL"`, built from the envelope's `message`. -/
theorem malformed_result_indistinguishable_from_fail :
    handleEnvelope ⟨"WEIRD", Json.null, some "m"⟩ loginFallback =
      handleEnvelope ⟨"FAIL", Json.null, some "m"⟩ loginFallback ∧
    handleEnvelope ⟨"WEIRD", Json.null, some "m"⟩ loginFallback =
      .error "m" := by
  exact ⟨rfl, rfl⟩

/-- Claim C4 (amended): envelope handling checks only whether `result`
equals `"SUCCESS"`: on `"SUCCESS"` the `data` field is returned to the
caller unexamined; any other `result` value — `"FAIL"` or not — is
surfaced as a generic error carrying the envelope's `message` (falling
back to the fixed per-operation message when `message` is absent or
empty), with no distinct malformed-response error. -/
theorem handleEnvelope_success_or_generic_error :
    (∀ e fallback, e.result = "SUCCESS" →
      handleEnvelope e fallback = .ok e.data) ∧
    (∀ e fallback, e.result ≠ "SUCCESS" →
      handleEnvelope e fallback = .error (messageOr e.message fallback)) ∧
    (∀ e e' fallback, e.result ≠ "SUCCESS" → e'.result ≠ "SUCCESS" →
      e.message = e'.message →
      handleEnvelope e fallback = handleEnvelope e' fallback) ∧
    (∀ e, isSuccessResponse e = true ↔ e.result = "SUCCESS") := by
  refine ⟨?_, ?_, ?_, ?_⟩
  · intro e fallback h
    simp [handleEnvelope, h]
  · intro e fallback h
    simp [handleEnvelope, h]
  · intro e e' fallback h h' hm
    simp [handleEnvelope, h, h', hm]
  · intro e
    simp [isSuccessResponse]

/-- Claim C4 witness: the amended theorem at concrete envelopes. -/
theorem handleEnvelope_success_or_generic_error_witness :
    handleEnvelope ⟨"SUCCESS", Json.str "payload", none⟩ loginFallback =
      .ok (Json.str "payload") ∧
    handleEnvelope ⟨"FAIL", Json.null, none⟩ loginFallback =
      .error loginFallback :=
  ⟨handleEnvelope_success_or_generic_error.1 _ _ rfl,
    handleEnvelope_success_or_generic_error.2.1 _ _ (by decide)⟩

end Baas

namespace Baas

/-- `validatePhone` of `src/skills/baas-integration/templates/baas.ts`,
lines 308-310: the regular expression `^010-\d\x7b4\x7d-\d\x7b4\x7d$`
spelt out. -/
def validatePhone (phone : String) : Bool :=
  match phone.data with
  | ['0', '1', '0', '-', a, b, c, d, '-', e, f, g, h] =>
    a.isDigit && b.isDigit && c.isDigit && d.isDigit &&
    e.isDigit && f.isDigit && g.isDigit && h.isDigit
  | _ => false

/-- `value.replace(/[^\d]/g, '')`: keep only the ASCII digits. -/
def digitsOf (l : List Char) : List Char := l.filter Char.isDigit

/-- The branch structure of `formatPhone` on the digit list: `slice(0,3)`
is `take 3`, `slice(3)` is `drop 3`, `slice(3,7)` is `take 4` of
`drop 3`, `slice(7,11)` is `take 4` of `drop 7`. -/
def formatDigits (n : List Char) : List Char :=
  if n.length ≤ 3 then n
  else if n.length ≤ 7 then n.take 3 ++ '-' :: n.drop 3
  else n.take 3 ++ '-' :: (n.drop 3).take 4 ++ '-' :: (n.drop 7).take 4

/-- `formatPhone` of `src/skills/baas-integration/templates/baas.ts`,
lines 318-323. -/
def formatPhone (value : String) : String :=
  String.mk (formatDigits (digitsOf value.data))

/-- Filtering the digits back out of a formatted number recovers the
first eleven input digits: the inserted dashes are not digits and the
third branch keeps digits 0-10 only. -/
theorem digitsOf_formatDigits (n : List Char) (h : ∀ c ∈ n, c.isDigit) :
    digitsOf (formatDigits n) = n.take 11 := by
  have hself : ∀ m : List Char, (∀ c ∈ m, c ∈ n) → m.filter Char.isDigit = m :=
    fun m hm => List.filter_eq_self.mpr fun c hc => h c (hm c hc)
  have hdash : Char.isDigit '-' = false := by decide
  unfold formatDigits digitsOf
  split
  next h3 =>
    rw [hself n fun c hc => hc, List.take_of_length_le (le_trans h3 (by norm_num))]
  next h3 =>
    split
    next h7 =>
      rw [List.filter_append, List.filter_cons, hdash]
      simp only [Bool.false_eq_true, if_false]
      rw [hself _ fun c hc => List.mem_of_mem_take hc,
        hself _ fun c hc => List.mem_of_mem_drop hc,
        List.take_append_drop]
      exact (List.take_of_length_le (by omega)).symm
    next h7 =>
      rw [List.filter_append, List.filter_cons, hdash]
      simp only [Bool.false_eq_true, if_false]
      rw [List.filter_append, List.filter_cons, hdash]
      simp only [Bool.false_eq_true, if_false]
      rw [hself _ fun c hc => List.mem_of_mem_take hc,
        hself _ fun c hc => List.mem_of_mem_drop (List.mem_of_mem_take hc),
        hself _ fun c hc => List.mem_of_mem_drop (List.mem_of_mem_take hc)]
      have h11 : n.take 11
          = n.take 3 ++ ((n.drop 3).take 4 ++ ((n.drop 3).drop 4).take 4) := by
        rw [← List.take_add, ← List.take_add]
      rw [List.drop_drop] at h11
      rw [h11, List.append_assoc]

/-- Formatting only ever looks at the first eleven digits. -/
theorem formatDigits_take11 (n : List Char) :
    formatDigits (n.take 11) = formatDigits n := by
  by_cases h7 : n.length ≤ 7
  · rw [List.take_of_length_le (le_trans h7 (by norm_num))]
  · have hlen : (n.take 11).length = min 11 n.length := by simp
    have e2 : formatDigits n =
        n.take 3 ++ '-' :: (n.drop 3).take 4 ++ '-' :: (n.drop 7).take 4 := by
      unfold formatDigits
      rw [if_neg (by omega), if_neg (by omega)]
    have e1 : formatDigits (n.take 11) =
        (n.take 11).take 3 ++ '-' :: ((n.take 11).drop 3).take 4 ++
          '-' :: ((n.take 11).drop 7).take 4 := by
      unfold formatDigits
      rw [if_neg (by omega), if_neg (by omega)]
    rw [e1, e2, List.take_take, List.drop_take, List.take_take,
      List.drop_take, List.take_take]
    norm_num

/-- Claim C6: the two concrete `validatePhone` verdicts, the concrete
`formatPhone` value, and idempotence of `formatPhone` on every input
string. -/
theorem phone_utilities_spec :
    validatePhone "010-1234-5678" = true ∧
    validatePhone "010-123-5678" = false ∧
    formatPhone "01012345678" = "010-1234-5678" ∧
    ∀ s : String, formatPhone (formatPhone s) = formatPhone s := by
  refine ⟨by decide, by decide, by decide, ?_⟩
  intro s
  show String.mk (formatDigits (digitsOf (formatDigits (digitsOf s.data))))
    = String.mk (formatDigits (digitsOf s.data))
  rw [digitsOf_formatDigits (digitsOf s.data)
      (fun c hc => List.of_mem_filter (show c ∈ List.filter Char.isDigit s.data from hc)),
    formatDigits_take11]

end Baas

namespace Baas

/-- An HTTP request as assembled for `fetch`: method, URL, the
`Content-Type` header if set, the `credentials` mode if the fetch
options pass one, and the body if one is passed. -/
structure HttpRequest where
  method : String
  url : String
  contentType : Option String
  credentials : Option String
  body : Option String

/-- `API_BASE_URL` of `src/skills/baas-integration/templates/baas.ts`,
line 20. -/
def API_BASE_URL : String := "https://api.aiapp.link"

/-- The optional signup fields (`SignupOptions` of `baas.ts`). -/
structure SignupOptions where
  terms_agreed : Option Bool
  privacy_agreed : Option Bool
  data : Option Json

/-- The object fields contributed by the `...options` spread in the
signup body, in declaration order. -/
def signupOptionFields (o : SignupOptions) : List (String × Json) :=
  (match o.terms_agreed with
    | some b => [("terms_agreed", Json.bool b)]
    | none => []) ++
  (match o.privacy_agreed with
    | some b => [("privacy_agreed", Json.bool b)]
    | none => []) ++
  (match o.data with
    | some j => [("data", j)]
    | none => [])

/-- The request issued by `signup` of `baas.ts`, lines 166-185: note the
`/account/signup-project` path. -/
def signupRequest (userId userPw name phone : String)
    (options : SignupOptions) (projectId : String) : HttpRequest :=
  { method := "POST"
    url := API_BASE_URL ++ "/account/signup-project"
    contentType := some "application/json"
    credentials := some "include"
    body := some (stringify (Json.obj
      ([("user_id", .str userId), ("user_pw", .str userPw),
        ("name", .str name), ("phone", .str phone),
        ("project_id", .str projectId)] ++ signupOptionFields options))) }

/-- The request issued by `login` of `baas.ts`, lines 208-218. -/
def loginRequest (userId userPw projectId : String) : HttpRequest :=
  { method := "POST"
    url := API_BASE_URL ++ "/account/login"
    contentType := some "application/json"
    credentials := some "include"
    body := some (stringify (Json.obj
      [("user_id", .str userId), ("user_pw", .str userPw),
        ("project_id", .str projectId)])) }

/-- The request issued by `logout` of `baas.ts`, lines 237-242: no
body. -/
def logoutRequest : HttpRequest :=
  { method := "POST"
    url := API_BASE_URL ++ "/account/logout"
    contentType := some "application/json"
    credentials := some "include"
    body := none }

/-- The request issued by `getAccountInfo` of `baas.ts`, lines
262-267. -/
def accountInfoRequest : HttpRequest :=
  { method := "GET"
    url := API_BASE_URL ++ "/account/info"
    contentType := some "application/json"
    credentials := some "include"
    body := none }

/-- Board fetch options (`PostFetchOptions` of `baas.ts`). -/
structure PostFetchOptions where
  offset : Option Int
  limit : Option Int
  keyword : Option String

/-- The query parameters appended by the board list functions: `offset`
and `limit` when defined, `keyword` when truthy. -/
def queryPairs (o : PostFetchOptions) : List (String × String) :=
  (match o.offset with
    | some n => [("offset", toString n)]
    | none => []) ++
  (match o.limit with
    | some n => [("limit", toString n)]
    | none => []) ++
  (match o.keyword with
    | some k => if k == "" then [] else [("keyword", k)]
    | none => [])

/-- `URLSearchParams.toString` on our pairs (the templates pass no
characters needing escaping in the claims under study). -/
def joinPairs : List (String × String) → String
  | [] => ""
  | [(k, v)] => k ++ "=" ++ v
  | (k, v) :: ps => k ++ "=" ++ v ++ "&" ++ joinPairs ps

/-- `path + (queryString ? "?" + queryString : "")`. -/
def withQuery (path : String) (o : PostFetchOptions) : String :=
  let qs := joinPairs (queryPairs o)
  if qs == "" then path else path ++ "?" ++ qs

/-- The request issued by `getNoticePosts` of `baas.ts`, lines
405-418. -/
def noticeListRequest (o : PostFetchOptions) (projectId : String) : HttpRequest :=
  { method := "GET"
    url := withQuery (API_BASE_URL ++ "/public/board/notice/" ++ projectId ++ "/posts") o
    contentType := some "application/json"
    credentials := some "include"
    body := none }

/-- The request issued by `getNoticePost` of `baas.ts`, lines 439-447. -/
def noticePostRequest (projectId postId : String) : HttpRequest :=
  { method := "GET"
    url := API_BASE_URL ++ "/public/board/notice/" ++ projectId ++ "/posts/" ++ postId
    contentType := some "application/json"
    credentials := some "include"
    body := none }

/-- The request issued by `getFaqPosts` of `baas.ts`, lines 472-485. -/
def faqListRequest (o : PostFetchOptions) (projectId : String) : HttpRequest :=
  { method := "GET"
    url := withQuery (API_BASE_URL ++ "/public/board/faq/" ++ projectId ++ "/posts") o
    contentType := some "application/json"
    credentials := some "include"
    body := none }

/-- The request issued by `getFaqPost` of `baas.ts`, lines 507-515. -/
def faqPostRequest (projectId postId : String) : HttpRequest :=
  { method := "GET"
    url := API_BASE_URL ++ "/public/board/faq/" ++ projectId ++ "/posts/" ++ postId
    contentType := some "application/json"
    credentials := some "include"
    body := none }

/-- The request issued by `signup` of
`src/account/baas-account-integrations/templates/auth.ts`, lines
102-110, whose base URL is environment-resolved. -/
def authSignupRequest (base : String) (body : Json) : HttpRequest :=
  { method := "POST"
    url := base ++ "/account/signup"
    contentType := some "application/json"
    credentials := some "include"
    body := some (stringify body) }

/-- The request issued by `login` of `auth.ts`, lines 133-141. -/
def authLoginRequest (base : String) (body : Json) : HttpRequest :=
  { method := "POST"
    url := base ++ "/account/login"
    contentType := some "application/json"
    credentials := some "include"
    body := some (stringify body) }

/-- The request issued by `logout` of `auth.ts`, lines 162-169. -/
def authLogoutRequest (base : String) : HttpRequest :=
  { method := "POST"
    url := base ++ "/account/logout"
    contentType := some "application/json"
    credentials := some "include"
    body := none }

/-- The request issued by `getAccountInfo` of `auth.ts`, lines 191-195:
a bare GET with the credential mode and no content-type header. -/
def authAccountInfoRequest (base : String) : HttpRequest :=
  { method := "GET"
    url := base ++ "/account/info"
    contentType := none
    credentials := some "include"
    body := none }

end Baas

namespace Baas

/-- The request invariant the Transport section of the spec states:
`credentials: 'include'` always, and the JSON content-type whenever a
body is present. -/
def wellFormedRequest (q : HttpRequest) : Prop :=
  q.credentials = some "include" ∧
  (q.body = none ∨ q.contentType = some "application/json")

/-- Claim C8 (counterexample): the integrated template's `signup` posts
to `/account/signup-project`, not to the endpoint table's
`/account/signup`. -/
theorem signup_path_counterexample :
    (signupRequest "u" "p" "n" "010-1234-5678" ⟨none, none, none⟩ "pid").url
      = "https://api.aiapp.link/account/signup-project" ∧
    (signupRequest "u" "p" "n" "010-1234-5678" ⟨none, none, none⟩ "pid").url
      ≠ "https://api.aiapp.link/account/signup" := by
  exact ⟨rfl, by decide⟩

/-- Claim C8 (amended): signup always issues a POST; the account
template posts to `/account/signup` as the endpoint table states, while
the integrated template posts to `/account/signup-project`. -/
theorem signup_endpoints :
    (∀ u p n ph o pid, (signupRequest u p n ph o pid).method = "POST" ∧
      (signupRequest u p n ph o pid).url = API_BASE_URL ++ "/account/signup-project") ∧
    (∀ base b, (authSignupRequest base b).method = "POST" ∧
      (authSignupRequest base b).url = base ++ "/account/signup") :=
  ⟨fun _ _ _ _ _ _ => ⟨rfl, rfl⟩, fun _ _ => ⟨rfl, rfl⟩⟩

end Baas

namespace Baas

/-- A recipient registration request (`RecipientCreateRequest` of
`recipient.ts` / `baas.ts`). -/
structure RecipientCreateRequest where
  name : String
  phone : String
  description : Option String
  metadata : Option Json

/-- The wire body object `registerRecipient` serialises
(`baas.ts`, lines 366-371). -/
structure RecipientWireBody where
  name : String
  phone : String
  description : String
  data : String

/-- The body normalisation of `registerRecipient`:
`description: request.description || ' '` and
`data: request.metadata ? JSON.stringify(request.metadata) : '\x7b\x7d'`. -/
def recipientWireBody (r : RecipientCreateRequest) : RecipientWireBody :=
  { name := r.name
    phone := r.phone
    description := match r.description with
      | some d => if d == "" then " " else d
      | none => " "
    data := match r.metadata with
      | some m => stringify m
      | none => "\x7b\x7d" }

/-- The request issued by `registerRecipient` of `baas.ts`, lines
362-372. -/
def recipientRequest (r : RecipientCreateRequest) (projectId : String) : HttpRequest :=
  { method := "POST"
    url := API_BASE_URL ++ "/recipient/" ++ projectId
    contentType := some "application/json"
    credentials := some "include"
    body := some (stringify (Json.obj
      [("name", .str (recipientWireBody r).name),
        ("phone", .str (recipientWireBody r).phone),
        ("description", .str (recipientWireBody r).description),
        ("data", .str (recipientWireBody r).data)])) }

/-- The fallback failure message of `registerRecipient`. -/
def recipientFallback : String := "발송대상 등록에 실패했습니다"

/-- The local validation error `registerRecipient` throws before any
network call (`baas.ts`, line 359). -/
def phoneFormatErrorMessage : String :=
  "전화번호 형식이 올바르지 않습니다. (예: 010-1234-5678)"

/-- A run of `registerRecipient` (`baas.ts`, lines 356-381): validate
the phone locally, resolve the project id, then issue the single fetch;
the second component lists every request that reached the network. -/
def registerRecipientRun (r : RecipientCreateRequest) (env : Env)
    (resp : RawEnvelope) : Except String Json × List HttpRequest :=
  if validatePhone r.phone then
    match getProjectId env with
    | .ok pid => (handleEnvelope resp recipientFallback, [recipientRequest r pid])
    | .error e => (.error e, [])
  else (.error phoneFormatErrorMessage, [])

/-- Claim C5: whenever the phone does not match the required shape,
`registerRecipient` throws the local format error and no request at all
is issued, whatever the environment and whatever the server would have
answered. -/
theorem invalid_phone_never_reaches_transport :
    ∀ (r : RecipientCreateRequest) (env : Env) (resp : RawEnvelope),
      validatePhone r.phone = false →
      (registerRecipientRun r env resp).2 = [] ∧
      (registerRecipientRun r env resp).1 = .error phoneFormatErrorMessage := by
  intro r env resp h
  simp [registerRecipientRun, h]

/-- Claim C5 witness: the theorem at the spec's concrete scenario, phone
`"010-12-3456"`. -/
theorem invalid_phone_never_reaches_transport_witness :
    validatePhone "010-12-3456" = false ∧
    (registerRecipientRun ⟨"홍길동", "010-12-3456", none, none⟩
        ⟨some "p", none, none, false, none⟩ ⟨"SUCCESS", Json.null, none⟩).2 = [] ∧
    (registerRecipientRun ⟨"홍길동", "010-12-3456", none, none⟩
        ⟨some "p", none, none, false, none⟩ ⟨"SUCCESS", Json.null, none⟩).1
      = .error phoneFormatErrorMessage :=
  ⟨by decide,
    (invalid_phone_never_reaches_transport _ _ _ (by decide)).1,
    (invalid_phone_never_reaches_transport _ _ _ (by decide)).2⟩

/-- Claim C10: the wire-body normalisation of `registerRecipient` —
an absent or empty description becomes the single-space string, absent
metadata becomes the literal `"\x7b\x7d"`, present metadata is
JSON-serialised, and name and phone pass through unchanged. -/
theorem recipient_body_normalisation :
    ∀ r : RecipientCreateRequest,
      ((r.description = none ∨ r.description = some "") →
        (recipientWireBody r).description = " ") ∧
      (∀ d, r.description = some d → d ≠ "" →
        (recipientWireBody r).description = d) ∧
      (r.metadata = none → (recipientWireBody r).data = "\x7b\x7d") ∧
      (∀ m, r.metadata = some m → (recipientWireBody r).data = stringify m) ∧
      (recipientWireBody r).name = r.name ∧
      (recipientWireBody r).phone = r.phone := by
  intro r
  refine ⟨?_, ?_, ?_, ?_, rfl, rfl⟩
  · rintro (h | h) <;> simp [recipientWireBody, h]
  · intro d h hd
    simp [recipientWireBody, h, hd]
  · intro h
    simp [recipientWireBody, h]
  · intro m h
    simp [recipientWireBody, h]

/-- Claim C10 witness: the normalisation theorem at concrete requests. -/
theorem recipient_body_normalisation_witness :
    (recipientWireBody ⟨"홍길동", "010-1234-5678", some "", none⟩).description = " " ∧
    (recipientWireBody ⟨"홍길동", "010-1234-5678", none, none⟩).data = "\x7b\x7d" ∧
    (recipientWireBody ⟨"홍길동", "010-1234-5678", none,
        some (Json.obj [("type", Json.str "reservation")])⟩).data
      = stringify (Json.obj [("type", Json.str "reservation")]) :=
  ⟨(recipient_body_normalisation _).1 (Or.inr rfl),
    (recipient_body_normalisation _).2.2.1 rfl,
    (recipient_body_normalisation _).2.2.2.1 _ rfl⟩

end Baas

namespace Baas

/-- The fallback failure message of `getAccountInfo`. -/
def accountInfoFallback : String := "계정 정보 조회에 실패했습니다"

/-- A run of `getAccountInfo` (`baas.ts`, lines 262-276): the outcome of
`fetch` plus `response.json()` — an error for a network-level or parse
failure, an envelope otherwise — put through the shared envelope
handling. -/
def getAccountInfoRun (outcome : Except String RawEnvelope) : Except String Json :=
  match outcome with
  | .ok e => handleEnvelope e accountInfoFallback
  | .error err => .error err

/-- The value `checkAuth` resolves with. -/
structure CheckAuthResult where
  isLoggedIn : Bool
  user : Option Json

/-- `checkAuth` (`baas.ts`, lines 289-296): `getAccountInfo` inside a
`try`, with every thrown error mapped to the logged-out result. -/
def checkAuthRun (outcome : Except String RawEnvelope) : CheckAuthResult :=
  match getAccountInfoRun outcome with
  | .ok u => { isLoggedIn := true, user := some u }
  | .error _ => { isLoggedIn := false, user := none }

/-- Claim C9: `checkAuth` is total and never throws — if the underlying
`getAccountInfo` run succeeds with `u` it returns the logged-in result
carrying `u`, if it fails with any error whatsoever it returns the
logged-out result, and every outcome lands in one of those two shapes. -/
theorem checkAuth_total_never_throws :
    ∀ outcome : Except String RawEnvelope,
      (∀ u, getAccountInfoRun outcome = .ok u →
        checkAuthRun outcome = ⟨true, some u⟩) ∧
      (∀ e, getAccountInfoRun outcome = .error e →
        checkAuthRun outcome = ⟨false, none⟩) ∧
      (checkAuthRun outcome = ⟨false, none⟩ ∨
        ∃ u, getAccountInfoRun outcome = .ok u ∧
          checkAuthRun outcome = ⟨true, some u⟩) := by
  intro outcome
  cases h : getAccountInfoRun outcome with
  | ok u =>
    refine ⟨?_, ?_, Or.inr ⟨u, rfl, ?_⟩⟩ <;> simp_all [checkAuthRun, h]
  | error e =>
    refine ⟨?_, ?_, Or.inl ?_⟩ <;> simp_all [checkAuthRun, h]

/-- Claim C9 witness: the theorem at a successful envelope, at an auth
failure envelope, and at a network failure. -/
theorem checkAuth_total_never_throws_witness :
    checkAuthRun (.ok ⟨"SUCCESS", Json.str "user", none⟩)
      = ⟨true, some (Json.str "user")⟩ ∧
    checkAuthRun (.ok ⟨"FAIL", Json.null, some "UNAUTHORIZED"⟩)
      = ⟨false, none⟩ ∧
    checkAuthRun (.error "network failure") = ⟨false, none⟩ :=
  ⟨(checkAuth_total_never_throws _).1 _ rfl,
    (checkAuth_total_never_throws _).2.1 "UNAUTHORIZED" rfl,
    (checkAuth_total_never_throws _).2.1 "network failure" rfl⟩

end Baas

namespace Baas

/-- The request issued by `signup` of the standalone signup templates
(`src/skills/baas-signup/templates/signup.js`, lines 88-94, and
`src/account/baas-signup/templates/signup.ts`, lines 99-112, identical
fetch options): a POST to `/account/signup` with the JSON content-type
and a body, but with no `credentials` entry in the fetch options. -/
def standaloneSignupRequest (userId userPw name phone : String)
    (options : SignupOptions) (projectId : String) : HttpRequest :=
  { method := "POST"
    url := API_BASE_URL ++ "/account/signup"
    contentType := some "application/json"
    credentials := none
    body := some (stringify (Json.obj
      ([("user_id", .str userId), ("user_pw", .str userPw),
        ("name", .str name), ("phone", .str phone),
        ("project_id", .str projectId)] ++ signupOptionFields options))) }

/-- Every operation of the integrated template (`baas.ts`, the recipient
call included), and of the account template (`auth.ts`), attaches
`credentials: 'include'` and sets the JSON content-type whenever a body
is present. -/
theorem all_requests_include_credentials :
    (∀ u p n ph o pid, wellFormedRequest (signupRequest u p n ph o pid)) ∧
    (∀ u p pid, wellFormedRequest (loginRequest u p pid)) ∧
    wellFormedRequest logoutRequest ∧
    wellFormedRequest accountInfoRequest ∧
    (∀ r pid, wellFormedRequest (recipientRequest r pid)) ∧
    (∀ o pid, wellFormedRequest (noticeListRequest o pid)) ∧
    (∀ pid postId, wellFormedRequest (noticePostRequest pid postId)) ∧
    (∀ o pid, wellFormedRequest (faqListRequest o pid)) ∧
    (∀ pid postId, wellFormedRequest (faqPostRequest pid postId)) ∧
    (∀ base b, wellFormedRequest (authSignupRequest base b)) ∧
    (∀ base b, wellFormedRequest (authLoginRequest base b)) ∧
    (∀ base, wellFormedRequest (authLogoutRequest base)) ∧
    (∀ base, wellFormedRequest (authAccountInfoRequest base)) := by
  refine ⟨fun _ _ _ _ _ _ => ⟨rfl, Or.inr rfl⟩,
    fun _ _ _ => ⟨rfl, Or.inr rfl⟩,
    ⟨rfl, Or.inl rfl⟩, ⟨rfl, Or.inl rfl⟩,
    fun _ _ => ⟨rfl, Or.inr rfl⟩,
    fun _ _ => ⟨rfl, Or.inl rfl⟩,
    fun _ _ => ⟨rfl, Or.inl rfl⟩,
    fun _ _ => ⟨rfl, Or.inl rfl⟩,
    fun _ _ => ⟨rfl, Or.inl rfl⟩,
    fun _ _ => ⟨rfl, Or.inr rfl⟩,
    fun _ _ => ⟨rfl, Or.inr rfl⟩,
    fun _ => ⟨rfl, Or.inl rfl⟩,
    fun _ => ⟨rfl, Or.inl rfl⟩⟩

/-- Claim C7: the standalone signup templates violate the
always-attach-credentials rule that the repository's own common-rules
document states for every request — their fetch issues a body-carrying
POST that sets the JSON content-type but passes no
`credentials: 'include'`, evaluated here at the template's own example
call. -/
theorem standalone_signup_omits_credentials :
    (standaloneSignupRequest "user@example.com" "password123" "홍길동"
        "010-1234-5678" ⟨none, none, none⟩ "pid").credentials = none ∧
    (standaloneSignupRequest "user@example.com" "password123" "홍길동"
        "010-1234-5678" ⟨none, none, none⟩ "pid").credentials ≠ some "include" ∧
    ¬ wellFormedRequest (standaloneSignupRequest "user@example.com"
        "password123" "홍길동" "010-1234-5678" ⟨none, none, none⟩ "pid") ∧
    ((standaloneSignupRequest "user@example.com" "password123" "홍길동"
          "010-1234-5678" ⟨none, none, none⟩ "pid").body.isSome = true ∧
      (standaloneSignupRequest "user@example.com" "password123" "홍길동"
          "010-1234-5678" ⟨none, none, none⟩ "pid").contentType
        = some "application/json") ∧
    (standaloneSignupRequest "user@example.com" "password123" "홍길동"
        "010-1234-5678" ⟨none, none, none⟩ "pid").method = "POST" ∧
    (standaloneSignupRequest "user@example.com" "password123" "홍길동"
        "010-1234-5678" ⟨none, none, none⟩ "pid").url
      = API_BASE_URL ++ "/account/signup" := by
  refine ⟨rfl, by decide, fun hw => ?_, ⟨rfl, rfl⟩, rfl, rfl⟩
  exact Option.noConfusion hw.1

end Baas
